import Mathlib

/-!
Verification development for the cv_shelves prediction backend.

Shallow embedding of the Detection Normalization, Deduplication and Query
logic found in `src/app/services/ml_service.py`, `src/app/routers.py` and
`src/DB/crud.py`.  Confidence values and box coordinates are modelled as
rationals; SQL nullable columns are modelled as `Option`; the record store
is an insertion-ordered list of rows.
-/

namespace CvShelves

/-- One candidate detection as emitted by the RFDETR backend: the
`supervision.Detections` structure keeps parallel arrays `xyxy`,
`confidence`, `class_id` of equal length, which we embed zipped into one
list of candidates. -/
structure RawDet where
  xyxy : List ℚ
  confidence : ℚ
  class_id : ℤ
deriving DecidableEq, Repr

/-- One finished detection in the unified output format produced by
`MLService.predict_rfdetr` / `MLService.predict_yolo` (a dict with keys
`xyxy`, `confidence`, `class_id`, `class_name`). -/
structure Detection where
  xyxy : List ℚ
  confidence : ℚ
  class_id : ℤ
  class_name : String
deriving DecidableEq, Repr

/-- The value returned by both predict methods: detections list, average
confidence, and the model tag. -/
structure NormalizedResult where
  detections : List Detection
  confidence : ℚ
  model : String
deriving DecidableEq, Repr

/-- One element of the list returned by the YOLO backend's `model.predict`:
a result object carrying boxes (parallel arrays `xyxy`, `conf`, `cls`,
embedded zipped) and the `names` class-id-to-label mapping. -/
structure YoloBox where
  xyxy : List ℚ
  conf : ℚ
  cls : ℤ
deriving DecidableEq, Repr

structure YoloResult where
  boxes : List YoloBox
  names : ℤ → String

namespace MLService

/-- The confidence-mask filter of `MLService.predict_rfdetr`
(`ml_service.py` lines 44-66): when the raw confidence array is nonempty,
keep exactly the candidates with `confidence >= confidence_threshold`;
otherwise the raw (empty) arrays pass through unfiltered. -/
def rfdetrFilter (raw : List RawDet) (confidence_threshold : ℚ) : List RawDet :=
  if raw.length > 0 then
    raw.filter (fun d => confidence_threshold ≤ d.confidence)
  else
    raw

/-- Average of a confidence list: `sum(confidences)/len(confidences) if
confidences else 0.0` (`ml_service.py` lines 73-74 and 147). -/
def avgConfidence (confidences : List ℚ) : ℚ :=
  if confidences = [] then 0 else confidences.sum / confidences.length

/-- The detection-object conversion of `predict_rfdetr` (lines 77-89): each
retained candidate becomes a dict with the default class name `item`. -/
def rfdetrDetections (raw : List RawDet) (confidence_threshold : ℚ) : List Detection :=
  (rfdetrFilter raw confidence_threshold).map
    (fun d => { xyxy := d.xyxy, confidence := d.confidence,
                class_id := d.class_id, class_name := "item" })

/-- `MLService.predict_rfdetr` (`ml_service.py` lines 19-98), taking the raw
backend output as input (the external model call).  Filters by the
confidence threshold, converts to the unified format, and averages the
retained confidences. -/
def predict_rfdetr (raw : List RawDet) (confidence_threshold : ℚ) : NormalizedResult :=
  let ds := rfdetrDetections raw confidence_threshold
  { detections := ds
    confidence := avgConfidence (ds.map (·.confidence))
    model := "rfdetr" }

/-- The conversion loop of `MLService.predict_yolo` (lines 129-144): every
box of every backend result object is converted; no confidence filtering
happens here (the threshold was handed to the backend as `conf=`). -/
def yoloDetections (results : List YoloResult) : List Detection :=
  results.flatMap (fun r => r.boxes.map
    (fun b => { xyxy := b.xyxy, confidence := b.conf,
                class_id := b.cls, class_name := r.names b.cls }))

/-- `MLService.predict_yolo` (`ml_service.py` lines 100-156), taking the raw
backend output as input.  The `confidence_threshold` argument is passed to
the backend call only; the conversion itself applies no filter. -/
def predict_yolo (results : List YoloResult) (confidence_threshold : ℚ) : NormalizedResult :=
  let _ := confidence_threshold
  let ds := yoloDetections results
  { detections := ds
    confidence := avgConfidence (ds.map (·.confidence))
    model := "yolo" }

end MLService

/-- The JSON `results` column of a prediction row: a single model's
normalized result, or the combined `{rfdetr, yolo}` payload built by
`predict_both` (`routers.py` lines 392-396).  The column is schemaless
JSON, so either shape can be stored under any model string. -/
inductive ResultsPayload where
  | single : NormalizedResult → ResultsPayload
  | combined : NormalizedResult → NormalizedResult → ResultsPayload
deriving DecidableEq, Repr

/-- A row of the `predictions` table (`DB/schema.py` lines 27-48).
Nullable columns are `Option`; `created_at` is an abstract integer
timestamp. -/
structure Prediction where
  id : String
  user_id : Option String
  model : String
  image_url : Option String
  image_base64 : Option String
  image_hash : Option String
  results : ResultsPayload
  confidence : Option ℚ
  rfdetr_confidence : Option ℚ
  yolo_confidence : Option ℚ
  confidence_threshold : Option ℚ
  rfdetr_threshold : Option ℚ
  yolo_threshold : Option ℚ
  comment : Option String
  created_at : ℤ
deriving DecidableEq, Repr

/-- A row of the `users` table, reduced to the columns the query logic
reads. -/
structure UserRec where
  id : String
  username : String
deriving DecidableEq, Repr

/-- The predictions table as an insertion-ordered list of rows. -/
abbrev Store := List Prediction

namespace PredictionCRUD

/-- `PredictionCRUD.create_prediction` (`DB/crud.py` lines 86-122): builds a
row from the arguments, adds and commits it, and returns it.  No structural
validation is performed.  The fresh row id and clock value are external
inputs (`uuid4` / `utcnow`). -/
def create_prediction (db : Store) (newId : String) (now : ℤ)
    (model : String) (results : ResultsPayload)
    (user_id image_url image_base64 image_hash : Option String)
    (confidence rfdetr_confidence yolo_confidence : Option ℚ)
    (confidence_threshold rfdetr_threshold yolo_threshold : Option ℚ)
    (comment : Option String) : Store × Prediction :=
  let row : Prediction :=
    { id := newId, user_id := user_id, model := model, image_url := image_url
      image_base64 := image_base64, image_hash := image_hash, results := results
      confidence := confidence, rfdetr_confidence := rfdetr_confidence
      yolo_confidence := yolo_confidence, confidence_threshold := confidence_threshold
      rfdetr_threshold := rfdetr_threshold, yolo_threshold := yolo_threshold
      comment := comment, created_at := now }
  (db ++ [row], row)

/-- Python truthiness of an optional string argument (`if user_id:` /
`if search_text:`): absent and empty strings are falsy. -/
def truthy : Option String → Bool
  | none => false
  | some s => !(s == "")

/-- The owner filter of `get_predictions` (`crud.py` lines 144-145):
applied only when `user_id` is truthy; a row whose `user_id` column is NULL
never matches the SQL equality. -/
def userMatches (user_id : Option String) (p : Prediction) : Bool :=
  if truthy user_id then p.user_id == user_id else true

/-- The model filter (`crud.py` lines 147-148): applied only when `model`
is truthy and different from the `all` sentinel. -/
def modelMatches (model : Option String) (p : Prediction) : Bool :=
  match model with
  | none => true
  | some m => if m == "" || m == "all" then true else p.model == m

/-- Case-insensitive substring containment, the semantics of SQL
`ilike '%txt%'` on a non-NULL column. -/
def ilikeContains (s txt : String) : Bool :=
  decide (2 ≤ ((s.toLower).splitOn txt.toLower).length)

/-- The free-text filter (`crud.py` lines 150-157): an OR of `ilike` over
the comment column, the (outer-joined) owner username, and the row id.  A
NULL comment or absent owner makes that disjunct unknown in SQL, hence not
a match. -/
def searchMatches (users : List UserRec) (search_text : Option String)
    (p : Prediction) : Bool :=
  match search_text with
  | none => true
  | some txt =>
    if txt == "" then true
    else
      (match p.comment with
       | some c => ilikeContains c txt
       | none => false) ||
      (match p.user_id.bind (fun uid => (users.find? (fun u => u.id == uid)).map (·.username)) with
       | some uname => ilikeContains uname txt
       | none => false) ||
      ilikeContains p.id txt

/-- The confidence-range filter (`crud.py` lines 159-167): each present
bound compares the `confidence` column; a NULL `confidence` satisfies
neither SQL comparison, so such a row is excluded whenever a bound is
given. -/
def confMatches (min_confidence max_confidence : Option ℚ) (p : Prediction) : Bool :=
  (match min_confidence with
   | none => true
   | some m => match p.confidence with
     | none => false
     | some c => decide (m ≤ c)) &&
  (match max_confidence with
   | none => true
   | some m => match p.confidence with
     | none => false
     | some c => decide (c ≤ m))

/-- Insert a row into a list kept in descending `created_at` order. -/
def insertDesc (p : Prediction) : Store → Store
  | [] => [p]
  | q :: rest =>
    if q.created_at ≤ p.created_at then p :: q :: rest else q :: insertDesc p rest

/-- `ORDER BY created_at DESC` as an insertion sort. -/
def sortDesc : Store → Store
  | [] => []
  | p :: rest => insertDesc p (sortDesc rest)

/-- `PredictionCRUD.get_predictions` (`DB/crud.py` lines 129-169): AND of
the four optional filters, descending creation-time order, then
offset/limit pagination. -/
def get_predictions (db : Store) (users : List UserRec)
    (skip limit : ℕ) (user_id model search_text : Option String)
    (min_confidence max_confidence : Option ℚ) : List Prediction :=
  let filtered := db.filter (fun p =>
    userMatches user_id p && modelMatches model p &&
    searchMatches users search_text p && confMatches min_confidence max_confidence p)
  ((sortDesc filtered).drop skip).take limit

/-- Replace the comment of the first row with the given id, as the ORM
mutation in `update_prediction_comment` does (ids are primary keys, so at
most one row matches). -/
def setComment (pid : String) (comment : String) : Store → Store
  | [] => []
  | p :: rest =>
    if p.id == pid then { p with comment := some comment } :: rest
    else p :: setComment pid comment rest

/-- `PredictionCRUD.update_prediction_comment` (`DB/crud.py` lines 171-179):
look the row up by id; if present, set its comment and return it, else
return nothing and leave the table alone. -/
def update_prediction_comment (db : Store) (prediction_id : String)
    (comment : String) : Store × Option Prediction :=
  match db.find? (fun p => p.id == prediction_id) with
  | none => (db, none)
  | some p => (setComment prediction_id comment db, some { p with comment := some comment })

end PredictionCRUD

namespace Routers

/-- The duplicate lookup of `predict_rfdetr` (`routers.py` lines 199-205):
same stored image hash, model string `rfdetr`, and RFDETR threshold.  The
caller's identity is not part of the filter. -/
def rfdetrDup (image_hash : String) (confidence_threshold : ℚ) (p : Prediction) : Bool :=
  p.image_hash == some image_hash && p.model == "rfdetr" &&
  p.rfdetr_threshold == some confidence_threshold

/-- The duplicate lookup of `predict_yolo` (`routers.py` lines 290-296). -/
def yoloDup (image_hash : String) (confidence_threshold : ℚ) (p : Prediction) : Bool :=
  p.image_hash == some image_hash && p.model == "yolo" &&
  p.yolo_threshold == some confidence_threshold

/-- The duplicate lookup of `predict_both` (`routers.py` lines 377-384):
both thresholds must match. -/
def bothDup (image_hash : String) (rfdetr_threshold yolo_threshold : ℚ)
    (p : Prediction) : Bool :=
  p.image_hash == some image_hash && p.model == "both" &&
  p.rfdetr_threshold == some rfdetr_threshold &&
  p.yolo_threshold == some yolo_threshold

/-- The JSON body a predict endpoint answers with: either the duplicate
short-circuit `{error, is_duplicate, duplicate_id}` or the stored results
together with the new `prediction_id`. -/
inductive PredictResponse where
  | duplicate (duplicate_id : String)
  | created (prediction_id : String) (results : ResultsPayload)
deriving DecidableEq, Repr

/-- `predict_rfdetr` (`routers.py` lines 159-238).  The external pieces are
inputs: `raw` is the detector backend's output for the uploaded image,
`hashFn` is `hashlib.sha256(...).hexdigest()`, `b64` the base64 encoder,
`newId`/`now` the fresh row id and clock.  Inference runs, then the
duplicate check short-circuits without storing, else exactly one row is
created via `PredictionCRUD.create_prediction`. -/
def predict_rfdetr (db : Store) (hashFn b64 : List ℕ → String)
    (raw : List RawDet) (content : List ℕ) (confidence_threshold : ℚ)
    (comment : Option String) (current_user : String) (newId : String) (now : ℤ) :
    Store × PredictResponse :=
  let results := MLService.predict_rfdetr raw confidence_threshold
  let image_base64 := b64 content
  let image_hash := hashFn content
  match db.find? (rfdetrDup image_hash confidence_threshold) with
  | some dup => (db, .duplicate dup.id)
  | none =>
    let out := PredictionCRUD.create_prediction db newId now "rfdetr"
      (.single results) (some current_user) none (some image_base64) (some image_hash)
      (some results.confidence) none none
      (some confidence_threshold) (some confidence_threshold) none comment
    (out.1, .created out.2.id (.single results))

/-- `predict_yolo` (`routers.py` lines 241-329), analogous to
`predict_rfdetr` with the YOLO backend and threshold column. -/
def predict_yolo (db : Store) (hashFn b64 : List ℕ → String)
    (raw : List YoloResult) (content : List ℕ) (confidence_threshold : ℚ)
    (comment : Option String) (current_user : String) (newId : String) (now : ℤ) :
    Store × PredictResponse :=
  let results := MLService.predict_yolo raw confidence_threshold
  let image_base64 := b64 content
  let image_hash := hashFn content
  match db.find? (yoloDup image_hash confidence_threshold) with
  | some dup => (db, .duplicate dup.id)
  | none =>
    let out := PredictionCRUD.create_prediction db newId now "yolo"
      (.single results) (some current_user) none (some image_base64) (some image_hash)
      (some results.confidence) none none
      (some confidence_threshold) none (some confidence_threshold) comment
    (out.1, .created out.2.id (.single results))

/-- `predict_both` (`routers.py` lines 334-426): both backends run, the
duplicate check matches on the hash, the `both` model string and the two
thresholds, and the stored row nests both normalized payloads with a NULL
single-model confidence. -/
def predict_both (db : Store) (hashFn b64 : List ℕ → String)
    (rawRf : List RawDet) (rawYl : List YoloResult) (content : List ℕ)
    (rfdetr_confidence_threshold yolo_confidence_threshold : ℚ)
    (comment : Option String) (current_user : String) (newId : String) (now : ℤ) :
    Store × PredictResponse :=
  let rfdetr_results := MLService.predict_rfdetr rawRf rfdetr_confidence_threshold
  let yolo_results := MLService.predict_yolo rawYl yolo_confidence_threshold
  let image_base64 := b64 content
  let image_hash := hashFn content
  match db.find? (bothDup image_hash rfdetr_confidence_threshold yolo_confidence_threshold) with
  | some dup => (db, .duplicate dup.id)
  | none =>
    let out := PredictionCRUD.create_prediction db newId now "both"
      (.combined rfdetr_results yolo_results) (some current_user) none
      (some image_base64) (some image_hash)
      none (some rfdetr_results.confidence) (some yolo_results.confidence)
      none (some rfdetr_confidence_threshold) (some yolo_confidence_threshold) comment
    (out.1, .created out.2.id (.combined rfdetr_results yolo_results))

/-- The JSON body of the history listing endpoint. -/
structure PredictionsPage where
  predictions : List Prediction
  total : ℕ
  skip : ℤ
  limit : ℤ
deriving DecidableEq, Repr

/-- The response FastAPI sends when a query parameter violates its declared
bounds. -/
def validationErrorMsg : String := "422 Unprocessable Entity"

/-- The declared FastAPI constraints on the listing endpoint's query
parameters (`routers.py` lines 502-508): `skip: Query(0, ge=0)`,
`limit: Query(100, ge=1, le=1000)`, `min_confidence`/`max_confidence:
Query(None, ge=0, le=1)`. -/
def paramsValid (skip limit : ℤ) (min_confidence max_confidence : Option ℚ) : Bool :=
  decide (0 ≤ skip) && decide (1 ≤ limit) && decide (limit ≤ 1000) &&
  min_confidence.all (fun m => decide (0 ≤ m) && decide (m ≤ 1)) &&
  max_confidence.all (fun m => decide (0 ≤ m) && decide (m ≤ 1))

/-- The history listing endpoint `get_predictions` (`routers.py` lines
500-561).  FastAPI rejects a request violating the declared parameter
bounds before the handler runs (a 422 validation failure); a valid request
delegates to `PredictionCRUD.get_predictions` and wraps the page. -/
def get_predictions (db : Store) (users : List UserRec) (skip limit : ℤ)
    (user_id model search_text : Option String)
    (min_confidence max_confidence : Option ℚ) : Except String PredictionsPage :=
  if paramsValid skip limit min_confidence max_confidence then
    let preds := PredictionCRUD.get_predictions db users skip.toNat limit.toNat
      user_id model search_text min_confidence max_confidence
    .ok { predictions := preds, total := preds.length, skip := skip, limit := limit }
  else .error validationErrorMsg

/-- The comment-update endpoint (`routers.py` lines 609-653): delegates to
`PredictionCRUD.update_prediction_comment` and turns a missing row into a
404 error. -/
def update_prediction_comment (db : Store) (prediction_id comment : String) :
    Store × Except String Prediction :=
  match PredictionCRUD.update_prediction_comment db prediction_id comment with
  | (db', none) => (db', .error "404 Prediction not found")
  | (db', some p) => (db', .ok p)

end Routers

/-- A prediction row with its comment column blanked, used to state that an
operation can change nothing but the comment. -/
def eraseComment (p : Prediction) : Prediction := { p with comment := none }

/-- An empty normalized payload, for sample rows. -/
def sampleResult : NormalizedResult :=
  { detections := [], confidence := 0, model := "rfdetr" }

def sampleYoloResult : NormalizedResult :=
  { detections := [], confidence := 0, model := "yolo" }

/-- Raw RFDETR output whose retained confidences are 0.9, 0.7, 0.5. -/
def threeDetRaw : List RawDet :=
  [{ xyxy := [0, 0, 1, 1], confidence := 9/10, class_id := 0 },
   { xyxy := [0, 0, 1, 1], confidence := 7/10, class_id := 0 },
   { xyxy := [0, 0, 1, 1], confidence := 5/10, class_id := 0 }]

section Lemmas

open PredictionCRUD

lemma mem_insertDesc {p q : Prediction} {l : Store} :
    q ∈ insertDesc p l ↔ q = p ∨ q ∈ l := by
  induction l with
  | nil => simp [insertDesc]
  | cons a t ih =>
    simp only [insertDesc]
    split
    · simp
    · simp only [List.mem_cons, ih]
      tauto

lemma mem_sortDesc {q : Prediction} {l : Store} :
    q ∈ sortDesc l ↔ q ∈ l := by
  induction l with
  | nil => simp [sortDesc]
  | cons a t ih => simp [sortDesc, mem_insertDesc, ih]

lemma avgConfidence_eq_zero : MLService.avgConfidence [] = 0 := rfl

lemma avgConfidence_mul_length {cs : List ℚ} (h : cs ≠ []) :
    MLService.avgConfidence cs * (cs.length : ℚ) = cs.sum := by
  have h0 : cs.length ≠ 0 := by simpa using h
  have hlen : (cs.length : ℚ) ≠ 0 := Nat.cast_ne_zero.mpr h0
  simp only [MLService.avgConfidence, if_neg h]
  field_simp

lemma setComment_map_eraseComment (pid c : String) (db : Store) :
    (setComment pid c db).map eraseComment = db.map eraseComment := by
  induction db with
  | nil => rfl
  | cons p rest ih =>
    simp only [setComment]
    split
    · simp [eraseComment]
    · simp [ih]

end Lemmas

/-- C3 counterexample: a raw RFDETR detection whose box `[5, 5, 1, 1]`
violates `x1 < x2` (5 is not below 1) passes the confidence filter and is
returned inside the normalized result with its geometry intact — no
failure occurs. -/
theorem c3_counterexample :
    (MLService.predict_rfdetr [{ xyxy := [5, 5, 1, 1], confidence := 9/10, class_id := 0 }]
        (1/10)).detections =
      [{ xyxy := [5, 5, 1, 1], confidence := 9/10, class_id := 0, class_name := "item" }] ∧
    ¬((5 : ℚ) < 1) := by
  refine ⟨?_, by norm_num⟩
  norm_num [MLService.predict_rfdetr, MLService.rfdetrDetections, MLService.rfdetrFilter]

/-- C3 (amended): the normalizers perform no geometry validation at all;
both are total functions and every retained candidate's box coordinates
are passed through into the normalized result unchanged, whatever their
values. -/
theorem c3_no_geometry_validation :
    (∀ (raw : List RawDet) (thr : ℚ),
      (MLService.predict_rfdetr raw thr).detections.map (·.xyxy) =
        (MLService.rfdetrFilter raw thr).map (·.xyxy)) ∧
    (∀ (results : List YoloResult) (thr : ℚ),
      (MLService.predict_yolo results thr).detections.map (·.xyxy) =
        (results.flatMap (·.boxes)).map (·.xyxy)) := by
  constructor
  · intro raw thr
    simp [MLService.predict_rfdetr, MLService.rfdetrDetections, List.map_map, Function.comp]
  · intro results thr
    show (MLService.yoloDetections results).map (·.xyxy) =
      (results.flatMap (·.boxes)).map (·.xyxy)
    induction results with
    | nil => rfl
    | cons r t ih =>
      simp only [MLService.yoloDetections, List.flatMap_cons, List.map_append,
        List.map_map] at ih ⊢
      rw [ih]
      simp [Function.comp]

/-- C4 counterexample: the YOLO conversion applies no confidence floor of
its own — a raw YOLO detection with confidence 0.1, strictly below the
floor 0.4, is retained in the returned normalized result. -/
theorem c4_counterexample :
    ((1 : ℚ)/10 < 2/5) ∧
    (MLService.predict_yolo
        [{ boxes := [{ xyxy := [0, 0, 1, 1], conf := 1/10, cls := 0 }],
           names := fun _ => "box" }] (2/5)).detections =
      [{ xyxy := [0, 0, 1, 1], confidence := 1/10, class_id := 0, class_name := "box" }] := by
  refine ⟨by norm_num, ?_⟩
  norm_num [MLService.predict_yolo, MLService.yoloDetections]

/-- C4 (amended): only the RFDETR normalization re-applies the confidence
floor itself — every detection it returns has confidence at or above the
floor; the YOLO conversion ignores the floor argument entirely and keeps
every detection present in the backend output. -/
theorem c4_floor_applied_in_rfdetr_only :
    (∀ (raw : List RawDet) (thr : ℚ) (d : Detection),
      d ∈ (MLService.predict_rfdetr raw thr).detections → thr ≤ d.confidence) ∧
    (∀ (results : List YoloResult) (thr : ℚ),
      (MLService.predict_yolo results thr).detections = MLService.yoloDetections results) := by
  constructor
  · intro raw thr d hd
    simp only [MLService.predict_rfdetr, MLService.rfdetrDetections, List.mem_map] at hd
    obtain ⟨d0, hd0, rfl⟩ := hd
    simp only [MLService.rfdetrFilter] at hd0
    split at hd0
    · exact of_decide_eq_true (List.mem_filter.mp hd0).2
    · rename_i hlen
      have : raw = [] := by
        cases raw with
        | nil => rfl
        | cons a t => simp at hlen
      subst this
      simp at hd0
  · intro results thr
    rfl

/-- Witness for the RFDETR half of the amended C4 statement at a concrete
input. -/
theorem c4_floor_applied_in_rfdetr_only_witness :
    ({ xyxy := [0, 0, 1, 1], confidence := 1/2, class_id := 0, class_name := "item" } : Detection) ∈
      (MLService.predict_rfdetr [{ xyxy := [0, 0, 1, 1], confidence := 1/2, class_id := 0 }]
        (1/10)).detections ∧
    (1/10 : ℚ) ≤
      ({ xyxy := [0, 0, 1, 1], confidence := 1/2, class_id := 0, class_name := "item" } : Detection).confidence := by
  have hmem : ({ xyxy := [0, 0, 1, 1], confidence := 1/2, class_id := 0, class_name := "item" } : Detection) ∈
      (MLService.predict_rfdetr [{ xyxy := [0, 0, 1, 1], confidence := 1/2, class_id := 0 }]
        (1/10)).detections := by
    norm_num [MLService.predict_rfdetr, MLService.rfdetrDetections, MLService.rfdetrFilter]
  exact ⟨hmem,
    c4_floor_applied_in_rfdetr_only.1
      [{ xyxy := [0, 0, 1, 1], confidence := 1/2, class_id := 0 }] (1/10) _ hmem⟩

/-- C5: the aggregate confidence of a normalized result is the arithmetic
mean of the retained detections' confidences — exactly 0 when none are
retained, and mean times count equals sum otherwise; on retained
confidences 0.9, 0.7, 0.5 it is exactly 0.7. -/
theorem c5_aggregate_confidence_is_mean :
    (∀ (raw : List RawDet) (thr : ℚ),
      ((MLService.predict_rfdetr raw thr).detections = [] →
        (MLService.predict_rfdetr raw thr).confidence = 0) ∧
      ((MLService.predict_rfdetr raw thr).detections ≠ [] →
        (MLService.predict_rfdetr raw thr).confidence *
            ((MLService.predict_rfdetr raw thr).detections.length : ℚ) =
          ((MLService.predict_rfdetr raw thr).detections.map (·.confidence)).sum)) ∧
    (∀ (results : List YoloResult) (thr : ℚ),
      ((MLService.predict_yolo results thr).detections = [] →
        (MLService.predict_yolo results thr).confidence = 0) ∧
      ((MLService.predict_yolo results thr).detections ≠ [] →
        (MLService.predict_yolo results thr).confidence *
            ((MLService.predict_yolo results thr).detections.length : ℚ) =
          ((MLService.predict_yolo results thr).detections.map (·.confidence)).sum)) ∧
    (MLService.predict_rfdetr threeDetRaw 0).confidence = 7/10 ∧
    (MLService.predict_yolo [] 0).confidence = 0 := by
  refine ⟨?_, ?_, ?_, rfl⟩
  · intro raw thr
    constructor
    · intro h
      have h' : MLService.rfdetrDetections raw thr = [] := h
      simp [MLService.predict_rfdetr, h', MLService.avgConfidence]
    · intro h
      have hmap : (MLService.predict_rfdetr raw thr).detections.map (·.confidence) ≠ [] := by
        simpa using h
      have := avgConfidence_mul_length hmap
      simpa [MLService.predict_rfdetr] using this
  · intro results thr
    constructor
    · intro h
      have h' : MLService.yoloDetections results = [] := h
      simp [MLService.predict_yolo, h', MLService.avgConfidence]
    · intro h
      have hmap : (MLService.predict_yolo results thr).detections.map (·.confidence) ≠ [] := by
        simpa using h
      have := avgConfidence_mul_length hmap
      simpa [MLService.predict_yolo] using this
  · rw [show (MLService.predict_rfdetr threeDetRaw 0).confidence =
        MLService.avgConfidence
          ((MLService.rfdetrDetections threeDetRaw 0).map (·.confidence)) from rfl]
    rw [show (MLService.rfdetrDetections threeDetRaw 0).map (·.confidence) =
        ([9/10, 7/10, 5/10] : List ℚ) by
      norm_num [MLService.rfdetrDetections, MLService.rfdetrFilter, threeDetRaw]]
    rw [MLService.avgConfidence, if_neg (by simp)]
    norm_num

/-- Witness for the hypothesis-bearing parts of C5 at concrete inputs. -/
theorem c5_aggregate_confidence_is_mean_witness :
    ((MLService.predict_rfdetr threeDetRaw 0).detections ≠ [] ∧
      (MLService.predict_rfdetr threeDetRaw 0).confidence *
          ((MLService.predict_rfdetr threeDetRaw 0).detections.length : ℚ) =
        ((MLService.predict_rfdetr threeDetRaw 0).detections.map (·.confidence)).sum) ∧
    ((MLService.predict_yolo [] 0).detections = [] ∧
      (MLService.predict_yolo [] 0).confidence = 0) := by
  have hconc : (MLService.predict_rfdetr threeDetRaw 0).detections =
      [{ xyxy := [0, 0, 1, 1], confidence := 9/10, class_id := 0, class_name := "item" },
       { xyxy := [0, 0, 1, 1], confidence := 7/10, class_id := 0, class_name := "item" },
       { xyxy := [0, 0, 1, 1], confidence := 5/10, class_id := 0, class_name := "item" }] := by
    norm_num [MLService.predict_rfdetr, MLService.rfdetrDetections,
      MLService.rfdetrFilter, threeDetRaw]
  have hne : (MLService.predict_rfdetr threeDetRaw 0).detections ≠ [] := by
    rw [hconc]
    simp
  exact ⟨⟨hne, (c5_aggregate_confidence_is_mean.1 threeDetRaw 0).2 hne⟩,
    ⟨rfl, (c5_aggregate_confidence_is_mean.2.1 [] 0).1 rfl⟩⟩

/-- C6 counterexample: `create_prediction` stores a row whose model string
is `both` but whose results column holds a single normalized payload and
whose threshold columns are all NULL — no validation failure occurs and
the row is committed. -/
theorem c6_counterexample :
    (PredictionCRUD.create_prediction [] "p1" 0 "both" (.single sampleResult)
        (some "u1") none none (some "H") none none none none none none none) =
      ([{ id := "p1", user_id := some "u1", model := "both", image_url := none,
          image_base64 := none, image_hash := some "H",
          results := .single sampleResult, confidence := none,
          rfdetr_confidence := none, yolo_confidence := none,
          confidence_threshold := none, rfdetr_threshold := none,
          yolo_threshold := none, comment := none, created_at := 0 }],
       { id := "p1", user_id := some "u1", model := "both", image_url := none,
         image_base64 := none, image_hash := some "H",
         results := .single sampleResult, confidence := none,
         rfdetr_confidence := none, yolo_confidence := none,
         confidence_threshold := none, rfdetr_threshold := none,
         yolo_threshold := none, comment := none, created_at := 0 }) := by
  rfl

/-- C6 (amended): `create_prediction` performs no structural validation:
for every combination of arguments it appends exactly the row built from
them — whatever model string, results shape and threshold columns are
passed — and never fails. -/
theorem c6_create_never_validates :
    ∀ (db : Store) (newId : String) (now : ℤ) (model : String)
      (results : ResultsPayload) (user_id image_url image_base64 image_hash : Option String)
      (confidence rfdetr_confidence yolo_confidence : Option ℚ)
      (confidence_threshold rfdetr_threshold yolo_threshold : Option ℚ)
      (comment : Option String),
      (PredictionCRUD.create_prediction db newId now model results
          user_id image_url image_base64 image_hash
          confidence rfdetr_confidence yolo_confidence
          confidence_threshold rfdetr_threshold yolo_threshold comment).1 =
        db ++ [(PredictionCRUD.create_prediction db newId now model results
          user_id image_url image_base64 image_hash
          confidence rfdetr_confidence yolo_confidence
          confidence_threshold rfdetr_threshold yolo_threshold comment).2] ∧
      (PredictionCRUD.create_prediction db newId now model results
          user_id image_url image_base64 image_hash
          confidence rfdetr_confidence yolo_confidence
          confidence_threshold rfdetr_threshold yolo_threshold comment).2.model = model ∧
      (PredictionCRUD.create_prediction db newId now model results
          user_id image_url image_base64 image_hash
          confidence rfdetr_confidence yolo_confidence
          confidence_threshold rfdetr_threshold yolo_threshold comment).2.results = results := by
  intros
  exact ⟨rfl, rfl, rfl⟩

/-- C9: updating a prediction's comment is a pure frame update — after
`update_prediction_comment`, every row of the table agrees with its old
value on every column except possibly the comment (identifier, model,
image payload, content hash, results, confidences, thresholds, owner and
creation timestamp are all unchanged). -/
theorem c9_update_comment_frame :
    ∀ (db : Store) (prediction_id comment : String),
      ((PredictionCRUD.update_prediction_comment db prediction_id comment).1).map eraseComment =
        db.map eraseComment := by
  intro db pid c
  unfold PredictionCRUD.update_prediction_comment
  cases h : db.find? (fun p => p.id == pid) with
  | none => rfl
  | some p => simpa using setComment_map_eraseComment pid c db

/-- A stored single-detector (RFDETR) row owned by alice. -/
def rowRf : Prediction :=
  { id := "d1", user_id := some "alice", model := "rfdetr", image_url := none,
    image_base64 := none, image_hash := some "H", results := .single sampleResult,
    confidence := some 1, rfdetr_confidence := none, yolo_confidence := none,
    confidence_threshold := some 1, rfdetr_threshold := some 1, yolo_threshold := none,
    comment := none, created_at := 0 }

/-- A stored single-detector (YOLO) row owned by alice. -/
def rowYl : Prediction :=
  { id := "d2", user_id := some "alice", model := "yolo", image_url := none,
    image_base64 := none, image_hash := some "H", results := .single sampleYoloResult,
    confidence := some 1, rfdetr_confidence := none, yolo_confidence := none,
    confidence_threshold := some 2, rfdetr_threshold := none, yolo_threshold := some 2,
    comment := none, created_at := 0 }

/-- A stored combined-model row owned by alice: its single-model
`confidence` column is NULL and both per-detector confidences are set. -/
def rowBoth : Prediction :=
  { id := "d3", user_id := some "alice", model := "both", image_url := none,
    image_base64 := none, image_hash := some "H",
    results := .combined sampleResult sampleYoloResult,
    confidence := none, rfdetr_confidence := some 1, yolo_confidence := some 1,
    confidence_threshold := none, rfdetr_threshold := some 1, yolo_threshold := some 2,
    comment := none, created_at := 0 }

/-- A combined-model row with per-detector confidences 0.9. -/
def combinedRow : Prediction :=
  { id := "c1", user_id := some "alice", model := "both", image_url := none,
    image_base64 := none, image_hash := some "H",
    results := .combined sampleResult sampleYoloResult,
    confidence := none, rfdetr_confidence := some (9/10), yolo_confidence := some (9/10),
    confidence_threshold := none, rfdetr_threshold := some 1, yolo_threshold := some 2,
    comment := none, created_at := 0 }

def dupStore : Store := [rowRf, rowYl, rowBoth]

/-- A stand-in for the external SHA-256 hexdigest function. -/
def hashF : List ℕ → String := fun _ => "H"

/-- A stand-in for the external base64 encoder. -/
def b64F : List ℕ → String := fun _ => "B"

/-- C1 counterexample: a combined-model record whose RFDETR confidence 0.9
lies inside the inclusive range [0.8, 1] is nevertheless NOT returned by a
confidence-range query: its single-model `confidence` column is NULL, so
the range filter excludes it, and the per-detector confidence columns are
never consulted. -/
theorem c1_counterexample :
    PredictionCRUD.get_predictions [combinedRow] [] 0 100 none none none
      (some (4/5)) (some 1) = [] ∧
    combinedRow.rfdetr_confidence = some (9/10) ∧
    ((4 : ℚ)/5 ≤ 9/10 ∧ (9 : ℚ)/10 ≤ 1) := by
  refine ⟨by decide, rfl, by norm_num⟩

/-- C1 (amended): the confidence-range filter reads only the single
`confidence` column.  Every record returned under a bounded query has a
non-NULL stored confidence satisfying all given bounds; on a non-NULL
confidence the filter is exactly inclusive-range membership; a record with
a NULL confidence column (every combined-model record) matches no bounded
query, its per-detector confidence columns notwithstanding. -/
theorem c1_range_filter_reads_single_confidence
    (db : Store) (users : List UserRec) (skip limit : ℕ)
    (user_id model search_text : Option String) (minC maxC : Option ℚ)
    (p q q' : Prediction) (c mi ma : ℚ)
    (hp : p ∈ PredictionCRUD.get_predictions db users skip limit
      user_id model search_text minC maxC)
    (hbound : minC.isSome ∨ maxC.isSome)
    (hq : q.confidence = some c) (hq' : q'.confidence = none) :
    PredictionCRUD.confMatches minC maxC p = true ∧
    p.confidence.isSome = true ∧
    (PredictionCRUD.confMatches (some mi) (some ma) q = true ↔ mi ≤ c ∧ c ≤ ma) ∧
    (PredictionCRUD.confMatches (some mi) none q = true ↔ mi ≤ c) ∧
    (PredictionCRUD.confMatches none (some ma) q = true ↔ c ≤ ma) ∧
    PredictionCRUD.confMatches minC maxC q' = false := by
  have hmem : p ∈ db.filter (fun r =>
      PredictionCRUD.userMatches user_id r && PredictionCRUD.modelMatches model r &&
      PredictionCRUD.searchMatches users search_text r &&
      PredictionCRUD.confMatches minC maxC r) := by
    unfold PredictionCRUD.get_predictions at hp
    exact mem_sortDesc.mp (List.mem_of_mem_drop (List.mem_of_mem_take hp))
  have hconf : PredictionCRUD.confMatches minC maxC p = true := by
    have h := (List.mem_filter.mp hmem).2
    simp only [Bool.and_eq_true] at h
    exact h.2
  refine ⟨hconf, ?_, ?_, ?_, ?_, ?_⟩
  · cases hpc : p.confidence with
    | some c0 => rfl
    | none =>
      exfalso
      unfold PredictionCRUD.confMatches at hconf
      rcases hbound with hb | hb
      · obtain ⟨m, hm⟩ := Option.isSome_iff_exists.mp hb
        subst hm
        rw [hpc] at hconf
        simp at hconf
      · obtain ⟨m, hm⟩ := Option.isSome_iff_exists.mp hb
        subst hm
        rw [hpc] at hconf
        cases minC <;> simp at hconf
  · unfold PredictionCRUD.confMatches
    rw [hq]
    simp
  · unfold PredictionCRUD.confMatches
    rw [hq]
    simp
  · unfold PredictionCRUD.confMatches
    rw [hq]
    simp
  · unfold PredictionCRUD.confMatches
    rw [hq']
    rcases hbound with hb | hb
    · obtain ⟨m, hm⟩ := Option.isSome_iff_exists.mp hb
      subst hm
      simp
    · obtain ⟨m, hm⟩ := Option.isSome_iff_exists.mp hb
      subst hm
      cases minC <;> simp

/-- Witness for the amended C1 statement at a concrete store: a
single-detector row with confidence 1 is returned under the range [0, 1]
and satisfies the filter, while the NULL-confidence combined row never
matches. -/
theorem c1_range_filter_reads_single_confidence_witness :
    PredictionCRUD.confMatches (some 0) (some 1) rowRf = true ∧
    rowRf.confidence.isSome = true ∧
    (PredictionCRUD.confMatches (some 0) (some 1) rowRf = true ↔ (0 : ℚ) ≤ 1 ∧ (1 : ℚ) ≤ 1) ∧
    (PredictionCRUD.confMatches (some 0) none rowRf = true ↔ (0 : ℚ) ≤ 1) ∧
    (PredictionCRUD.confMatches none (some 1) rowRf = true ↔ (1 : ℚ) ≤ 1) ∧
    PredictionCRUD.confMatches (some 0) (some 1) combinedRow = false :=
  c1_range_filter_reads_single_confidence [rowRf] [] 0 100 none none none
    (some 0) (some 1) rowRf rowRf combinedRow 1 0 1
    (by decide) (Or.inl rfl) rfl rfl

/-- C2: the deduplication guard of each predict endpoint.  If the stored
table's lookup on (image hash, model string, relevant threshold column(s))
finds a row, the endpoint answers with that row's id and the duplicate
flag and the table is unchanged — no create runs; if no row matches,
exactly one new row (the one built by `create_prediction` from this
request) is appended. -/
theorem c2_dedup_guard
    (db : Store) (hashFn b64 : List ℕ → String) (content : List ℕ)
    (rawRf : List RawDet) (rawYl : List YoloResult)
    (thr rthr ythr : ℚ) (comment : Option String) (uid newId : String) (now : ℤ) :
    (∀ r, db.find? (Routers.rfdetrDup (hashFn content) thr) = some r →
      Routers.predict_rfdetr db hashFn b64 rawRf content thr comment uid newId now =
        (db, .duplicate r.id)) ∧
    ((∀ r ∈ db, ¬ Routers.rfdetrDup (hashFn content) thr r) →
      Routers.predict_rfdetr db hashFn b64 rawRf content thr comment uid newId now =
        (db ++ [(PredictionCRUD.create_prediction db newId now "rfdetr"
            (.single (MLService.predict_rfdetr rawRf thr)) (some uid) none
            (some (b64 content)) (some (hashFn content))
            (some (MLService.predict_rfdetr rawRf thr).confidence) none none
            (some thr) (some thr) none comment).2],
         .created newId (.single (MLService.predict_rfdetr rawRf thr)))) ∧
    (∀ r, db.find? (Routers.yoloDup (hashFn content) thr) = some r →
      Routers.predict_yolo db hashFn b64 rawYl content thr comment uid newId now =
        (db, .duplicate r.id)) ∧
    ((∀ r ∈ db, ¬ Routers.yoloDup (hashFn content) thr r) →
      Routers.predict_yolo db hashFn b64 rawYl content thr comment uid newId now =
        (db ++ [(PredictionCRUD.create_prediction db newId now "yolo"
            (.single (MLService.predict_yolo rawYl thr)) (some uid) none
            (some (b64 content)) (some (hashFn content))
            (some (MLService.predict_yolo rawYl thr).confidence) none none
            (some thr) none (some thr) comment).2],
         .created newId (.single (MLService.predict_yolo rawYl thr)))) ∧
    (∀ r, db.find? (Routers.bothDup (hashFn content) rthr ythr) = some r →
      Routers.predict_both db hashFn b64 rawRf rawYl content rthr ythr comment uid newId now =
        (db, .duplicate r.id)) ∧
    ((∀ r ∈ db, ¬ Routers.bothDup (hashFn content) rthr ythr r) →
      Routers.predict_both db hashFn b64 rawRf rawYl content rthr ythr comment uid newId now =
        (db ++ [(PredictionCRUD.create_prediction db newId now "both"
            (.combined (MLService.predict_rfdetr rawRf rthr) (MLService.predict_yolo rawYl ythr))
            (some uid) none (some (b64 content)) (some (hashFn content))
            none (some (MLService.predict_rfdetr rawRf rthr).confidence)
            (some (MLService.predict_yolo rawYl ythr).confidence)
            none (some rthr) (some ythr) comment).2],
         .created newId (.combined (MLService.predict_rfdetr rawRf rthr)
           (MLService.predict_yolo rawYl ythr)))) := by
  refine ⟨?_, ?_, ?_, ?_, ?_, ?_⟩
  · intro r h
    simp only [Routers.predict_rfdetr, h]
  · intro h
    have hfind := List.find?_eq_none.mpr h
    simp only [Routers.predict_rfdetr, hfind]
    rfl
  · intro r h
    simp only [Routers.predict_yolo, h]
  · intro h
    have hfind := List.find?_eq_none.mpr h
    simp only [Routers.predict_yolo, hfind]
    rfl
  · intro r h
    simp only [Routers.predict_both, h]
  · intro h
    have hfind := List.find?_eq_none.mpr h
    simp only [Routers.predict_both, hfind]
    rfl

/-- Witness for C2 at concrete inputs: against a store holding matching
rows each endpoint short-circuits with the stored row's id leaving the
store unchanged, and against an empty store each endpoint appends exactly
one row. -/
theorem c2_dedup_guard_witness :
    Routers.predict_rfdetr dupStore hashF b64F [] [] 1 none "bob" "n1" 5 =
      (dupStore, .duplicate "d1") ∧
    Routers.predict_yolo dupStore hashF b64F [] [] 2 none "bob" "n1" 5 =
      (dupStore, .duplicate "d2") ∧
    Routers.predict_both dupStore hashF b64F [] [] [] 1 2 none "bob" "n1" 5 =
      (dupStore, .duplicate "d3") ∧
    Routers.predict_rfdetr [] hashF b64F [] [] 1 none "bob" "n1" 5 =
      ([(PredictionCRUD.create_prediction [] "n1" 5 "rfdetr"
          (.single (MLService.predict_rfdetr [] 1)) (some "bob") none
          (some "B") (some "H") (some (MLService.predict_rfdetr [] 1).confidence)
          none none (some 1) (some 1) none none).2],
       .created "n1" (.single (MLService.predict_rfdetr [] 1))) := by
  refine ⟨?_, ?_, ?_, ?_⟩
  · exact (c2_dedup_guard dupStore hashF b64F [] [] [] 1 1 2 none "bob" "n1" 5).1
      rowRf (by decide)
  · exact (c2_dedup_guard dupStore hashF b64F [] [] [] 2 1 2 none "bob" "n1" 5).2.2.1
      rowYl (by decide)
  · exact (c2_dedup_guard dupStore hashF b64F [] [] [] 1 1 2 none "bob" "n1" 5).2.2.2.2.1
      rowBoth (by decide)
  · exact ((c2_dedup_guard [] hashF b64F [] [] [] 1 1 2 none "bob" "n1" 5).2.1
      (by simp)).trans (by rfl)

/-- C7 counterexample: a query whose minimum confidence 1 exceeds its
maximum 0 passes the endpoint's validation (each bound is individually in
[0, 1]) and executes; it does not fail — it returns an OK page, empty
because the two bounds are conjoined. -/
theorem c7_counterexample :
    ((0 : ℚ) < 1) ∧
    Routers.get_predictions [rowRf] [] 0 100 none none none (some 1) (some 0) =
      .ok { predictions := [], total := 0, skip := 0, limit := 100 } := by
  exact ⟨by norm_num, rfl⟩

/-- C7 (amended): a filter with min confidence strictly above max
confidence is not rejected; the endpoint validates each bound separately,
runs the query with both bounds ANDed on the same confidence column — an
unsatisfiable predicate — and returns an OK, empty page. -/
theorem c7_min_above_max_returns_empty_page
    (db : Store) (users : List UserRec) (skip limit : ℤ)
    (user_id model search_text : Option String) (m M : ℚ)
    (hskip : 0 ≤ skip) (hlim1 : 1 ≤ limit) (hlim2 : limit ≤ 1000)
    (hm0 : 0 ≤ m) (hm1 : m ≤ 1) (hM0 : 0 ≤ M) (hM1 : M ≤ 1) (hgt : M < m) :
    Routers.get_predictions db users skip limit user_id model search_text
      (some m) (some M) =
      .ok { predictions := [], total := 0, skip := skip, limit := limit } := by
  have hvalid : Routers.paramsValid skip limit (some m) (some M) = true := by
    simp only [Routers.paramsValid, Option.all, Bool.and_eq_true, decide_eq_true_eq]
    exact ⟨⟨⟨⟨hskip, hlim1⟩, hlim2⟩, ⟨hm0, hm1⟩⟩, hM0, hM1⟩
  have hconf : ∀ p : Prediction,
      PredictionCRUD.confMatches (some m) (some M) p = false := by
    intro p
    unfold PredictionCRUD.confMatches
    cases hc : p.confidence with
    | none => simp
    | some c =>
      by_cases h1 : m ≤ c
      · have h2 : ¬ c ≤ M := by linarith
        simp [h1, h2]
      · simp [h1]
  have hfilter : db.filter (fun r =>
      PredictionCRUD.userMatches user_id r && PredictionCRUD.modelMatches model r &&
      PredictionCRUD.searchMatches users search_text r &&
      PredictionCRUD.confMatches (some m) (some M) r) = [] := by
    refine List.filter_eq_nil_iff.mpr ?_
    intro p hp
    simp [hconf p]
  unfold Routers.get_predictions
  rw [if_pos hvalid]
  unfold PredictionCRUD.get_predictions
  rw [hfilter]
  simp [PredictionCRUD.sortDesc]

/-- Witness for the amended C7 statement at concrete inputs. -/
theorem c7_min_above_max_returns_empty_page_witness :
    Routers.get_predictions [] [] 0 100 none none none (some 1) (some 0) =
      .ok { predictions := [], total := 0, skip := 0, limit := 100 } :=
  c7_min_above_max_returns_empty_page [] [] 0 100 none none none 1 0
    (by norm_num) (by norm_num) (by norm_num) (by norm_num) (by norm_num)
    (by norm_num) (by norm_num) (by norm_num)

/-- C8: a query with limit at most 0, limit above 1000, or negative
offset is rejected by the declared parameter bounds — the endpoint answers
with the validation failure and no page is produced. -/
theorem c8_pagination_bounds_rejected
    (db : Store) (users : List UserRec) (skip limit : ℤ)
    (user_id model search_text : Option String)
    (min_confidence max_confidence : Option ℚ)
    (h : limit ≤ 0 ∨ 1000 < limit ∨ skip < 0) :
    Routers.get_predictions db users skip limit user_id model search_text
      min_confidence max_confidence = .error Routers.validationErrorMsg := by
  have hinvalid : Routers.paramsValid skip limit min_confidence max_confidence = false := by
    rw [Bool.eq_false_iff]
    intro hv
    simp only [Routers.paramsValid, Bool.and_eq_true, decide_eq_true_eq] at hv
    obtain ⟨⟨⟨⟨h1, h2⟩, h3⟩, _⟩, _⟩ := hv
    rcases h with h | h | h <;> omega
  unfold Routers.get_predictions
  rw [hinvalid]
  simp

/-- Witness for C8 at `limit = -1`. -/
theorem c8_pagination_bounds_rejected_witness :
    Routers.get_predictions [] [] 0 (-1) none none none none none =
      .error Routers.validationErrorMsg :=
  c8_pagination_bounds_rejected [] [] 0 (-1) none none none none none
    (Or.inl (by norm_num))

/-- C10: the duplicate lookup never involves the caller's identity.  When
the first stored row matching (image hash, model, threshold(s)) belongs to
a different owner, each predict endpoint still short-circuits as a
duplicate of that other owner's row and appends nothing for the current
caller; moreover, the response is the same whatever caller identity is
supplied. -/
theorem c10_dedup_ignores_owner
    (db : Store) (hashFn b64 : List ℕ → String) (content : List ℕ)
    (rawRf : List RawDet) (rawYl : List YoloResult)
    (thrRf thrYl rthr ythr : ℚ) (comment : Option String)
    (uid uid2 newId : String) (now : ℤ) (r1 r2 r3 : Prediction)
    (h1 : db.find? (Routers.rfdetrDup (hashFn content) thrRf) = some r1)
    (ho1 : r1.user_id ≠ some uid)
    (h2 : db.find? (Routers.yoloDup (hashFn content) thrYl) = some r2)
    (ho2 : r2.user_id ≠ some uid)
    (h3 : db.find? (Routers.bothDup (hashFn content) rthr ythr) = some r3)
    (ho3 : r3.user_id ≠ some uid) :
    Routers.predict_rfdetr db hashFn b64 rawRf content thrRf comment uid newId now =
      (db, .duplicate r1.id) ∧
    Routers.predict_yolo db hashFn b64 rawYl content thrYl comment uid newId now =
      (db, .duplicate r2.id) ∧
    Routers.predict_both db hashFn b64 rawRf rawYl content rthr ythr comment uid newId now =
      (db, .duplicate r3.id) ∧
    Routers.predict_rfdetr db hashFn b64 rawRf content thrRf comment uid newId now =
      Routers.predict_rfdetr db hashFn b64 rawRf content thrRf comment uid2 newId now ∧
    Routers.predict_yolo db hashFn b64 rawYl content thrYl comment uid newId now =
      Routers.predict_yolo db hashFn b64 rawYl content thrYl comment uid2 newId now ∧
    Routers.predict_both db hashFn b64 rawRf rawYl content rthr ythr comment uid newId now =
      Routers.predict_both db hashFn b64 rawRf rawYl content rthr ythr comment uid2 newId now := by
  refine ⟨?_, ?_, ?_, ?_, ?_, ?_⟩
  · simp only [Routers.predict_rfdetr, h1]
  · simp only [Routers.predict_yolo, h2]
  · simp only [Routers.predict_both, h3]
  · simp only [Routers.predict_rfdetr, h1]
  · simp only [Routers.predict_yolo, h2]
  · simp only [Routers.predict_both, h3]

/-- Witness for C10: the matching rows of `dupStore` are alice's; caller
bob still gets duplicate short-circuits naming alice's rows. -/
theorem c10_dedup_ignores_owner_witness :
    Routers.predict_rfdetr dupStore hashF b64F [] [] 1 none "bob" "n2" 7 =
      (dupStore, .duplicate "d1") ∧
    Routers.predict_yolo dupStore hashF b64F [] [] 2 none "bob" "n2" 7 =
      (dupStore, .duplicate "d2") ∧
    Routers.predict_both dupStore hashF b64F [] [] [] 1 2 none "bob" "n2" 7 =
      (dupStore, .duplicate "d3") := by
  have h := c10_dedup_ignores_owner dupStore hashF b64F [] [] [] 1 2 1 2 none
    "bob" "carol" "n2" 7 rowRf rowYl rowBoth
    (by decide) (by decide) (by decide) (by decide) (by decide) (by decide)
  exact ⟨h.1, h.2.1, h.2.2.1⟩

end CvShelves
